import Mathlib

/-!
Shallow embedding of the G-Code-Remote-Command-Loader repository
(port discovery, port cache, connection lifecycle, motion protocol).

Strings from the Python source are modelled as `List Char` so that the
substring/split/lower-case operations used by the code can be defined by
structural recursion and evaluated by `decide`.
-/

/-- Lower-case an ASCII character: models Python `str.lower()` on the
ASCII inputs that appear in port descriptions and device labels. -/
def asciiLower (c : Char) : Char :=
  if 'A' ≤ c ∧ c ≤ 'Z' then Char.ofNat (c.toNat + 32) else c

/-- Lower-case a whole string (list of characters). -/
def lowerStr (s : List Char) : List Char :=
  s.map asciiLower

/-- Index of the first occurrence of `sep` in `xs`, if any.
Used to model Python `in` and `str.split`. -/
def findSub (sep : List Char) : List Char → Option Nat
  | [] => if sep.isPrefixOf ([] : List Char) then some 0 else none
  | c :: t =>
    if sep.isPrefixOf (c :: t) then some 0
    else (findSub sep t).map fun n => n + 1

/-- Boolean substring test: models Python `sep in xs` and
`re.search` of a literal pattern. -/
def containsSub (sep xs : List Char) : Bool :=
  (findSub sep xs).isSome

/-- Fuel-indexed worker for `splitOnList`.  For a non-empty separator each
recursive step consumes at least one character, so fuel `xs.length + 1`
always suffices and the fuel-exhausted branch is never taken on the
separators used by the source (`"MPos:"`, `"|"`, `","`, `"."`). -/
def splitGo (sep : List Char) : Nat → List Char → List (List Char)
  | 0, xs => [xs]
  | fuel + 1, xs =>
    match findSub sep xs with
    | none => [xs]
    | some i => xs.take i :: splitGo sep fuel (xs.drop (i + sep.length))

/-- Python `xs.split(sep)` for a non-empty separator. -/
def splitOnList (sep xs : List Char) : List (List Char) :=
  splitGo sep (xs.length + 1) xs

/-- Python truthiness of an optional integer argument: `None` and `0` are
falsy, every other integer is truthy.  Models the `if vid and pid:` guard
of `PortFinder._find_by_vid_pid`. -/
def truthy : Option Nat → Bool
  | none => false
  | some n => decide (n ≠ 0)

/-- A JSON-ish scalar value stored in a port-descriptor record
(string, integer, or JSON null). -/
inductive PV where
  | s (v : List Char)
  | i (n : Int)
  | null
deriving DecidableEq

/-- A port-descriptor record: the parsed content of the JSON cache file,
a Python dict with string keys. -/
abbrev Record : Type := List (List Char × PV)

/-- Membership test `key in record`, models Python `"device" in port_info`. -/
def recHasKey (r : Record) (k : List Char) : Bool :=
  r.any fun kv => decide (kv.1 = k)

/-- Lookup `record.get(key)`, models Python `dict.get`. -/
def recGet (r : Record) (k : List Char) : Option PV :=
  (r.find? fun kv => decide (kv.1 = k)).map fun kv => kv.2

/-- The required key of a persisted descriptor. -/
def devKey : List Char := "device".data

/-- An enumerated serial port as returned by the OS enumeration
collaborator (`serial.tools.list_ports.comports()`): device name,
optional vendor id, optional product id, optional description.
`none` models both an absent attribute and a `None` value, which the
source treats identically in every comparison it performs. -/
structure SPort where
  device : List Char
  vid : Option Nat
  pid : Option Nat
  description : Option (List Char)
deriving DecidableEq

/-- Markers that identify a virtual port, from
`port_finder_utils.is_virtual_port`. -/
def virtual_markers : List (List Char) :=
  ["bluetooth".data, "virtual".data, "com0com".data, "tcp".data, "network".data]

/-- Embedding of `port_finder_utils.is_virtual_port`: false when the
description is absent or empty (falsy), otherwise true iff the
lower-cased description contains one of the fixed markers. -/
def is_virtual_port (port : SPort) : Bool :=
  match port.description with
  | none => false
  | some d =>
    if decide (d = []) then false
    else virtual_markers.any fun w => containsSub w (lowerStr d)

namespace PortFinder

/-- The static table `PortFinder.KNOWN_DEVICES` of (vid, pid) pairs to
device labels. -/
def KNOWN_DEVICES : List ((Nat × Nat) × List Char) :=
  [((0x1A86, 0x7523), "CH340 Serial Adapter".data),
   ((0x2341, 0x0043), "Arduino Uno".data),
   ((0x2341, 0x0001), "Arduino Mega".data),
   ((0x0403, 0x6001), "FTDI FT232".data),
   ((0x10C4, 0xEA60), "CP210x Serial Adapter".data)]

/-- Lookup `(vid, pid) in KNOWN_DEVICES` returning the mapped label. -/
def known_device_label (v p : Nat) : Option (List Char) :=
  (KNOWN_DEVICES.find? fun e => decide (e.1 = (v, p))).map fun e => e.2

/-- Literal alternatives of the second compiled pattern in
`PortFinder.COMMON_PATTERNS` (`cnc|grbl|serial|usb|ch34|arduino`,
case-insensitive). -/
def generic_pattern_words : List (List Char) :=
  ["cnc".data, "grbl".data, "serial".data, "usb".data, "ch34".data, "arduino".data]

/-- True iff one of the `COMMON_PATTERNS` regexes matches the
description: both patterns are alternations of literal words searched
case-insensitively, i.e. lower-cased substring tests. -/
def matches_common_patterns (d : List Char) : Bool :=
  containsSub ("laser".data) (lowerStr d)
    || generic_pattern_words.any fun w => containsSub w (lowerStr d)

/-- Embedding of `PortFinder._find_by_vid_pid`: guarded by Python
truthiness of both arguments (`if vid and pid:`), then the first port
whose vid/pid pair equals the arguments (comparison against an absent
or `None` attribute is false, as in Python). -/
def find_by_vid_pid (vid pid : Option Nat) (ports : List SPort) : Option (List Char) :=
  if truthy vid && truthy pid then
    match ports.find? fun p => decide (p.vid = vid) && decide (p.pid = pid) with
    | some p => some p.device
    | none => none
  else none

/-- Loop body of `PortFinder._find_by_preferred`: skip virtual ports when
requested, look the (vid, pid) pair up in `KNOWN_DEVICES`, and return the
first port whose mapped label contains one of the preferred substrings
case-insensitively. -/
def find_by_preferred_go (prefs : List (List Char)) (skip_virtual : Bool) :
    List SPort → Option (List Char)
  | [] => none
  | p :: rest =>
    if skip_virtual && is_virtual_port p then find_by_preferred_go prefs skip_virtual rest
    else
      match p.vid, p.pid with
      | some v, some pd =>
        match known_device_label v pd with
        | some devType =>
          if prefs.any fun s => containsSub (lowerStr s) (lowerStr devType) then some p.device
          else find_by_preferred_go prefs skip_virtual rest
        | none => find_by_preferred_go prefs skip_virtual rest
      | _, _ => find_by_preferred_go prefs skip_virtual rest

/-- Embedding of `PortFinder._find_by_preferred`: `if not preferred:`
returns nothing for `None` and for the empty list. -/
def find_by_preferred (preferred : Option (List (List Char))) (ports : List SPort)
    (skip_virtual : Bool) : Option (List Char) :=
  match preferred with
  | none => none
  | some prefs =>
    if decide (prefs = []) then none
    else find_by_preferred_go prefs skip_virtual ports

/-- Embedding of `PortFinder._find_by_patterns`: skip virtual ports when
requested, then return the first port whose description (absent modelled
as empty, as `getattr(port, 'description', '') or ''`) matches one of
`COMMON_PATTERNS`. -/
def find_by_patterns (skip_virtual : Bool) : List SPort → Option (List Char)
  | [] => none
  | p :: rest =>
    if skip_virtual && is_virtual_port p then find_by_patterns skip_virtual rest
    else
      if matches_common_patterns (p.description.getD []) then some p.device
      else find_by_patterns skip_virtual rest

/-- Embedding of `PortFinder.find_station_port`.  `cachedResult` is the
outcome of `self._get_cached_port()` (an environment input); `ports` is
the fresh enumeration.  The cached port is used only when `use_cached`
is true and the cache lookup is truthy; with no ports the search fails;
otherwise the three tiers are tried in order, short-circuiting on the
first success exactly as the `or` chain in the source. -/
def find_station_port (cachedResult : Option (List Char)) (vid pid : Option Nat)
    (preferred : Option (List (List Char))) (skip_virtual use_cached : Bool)
    (ports : List SPort) : Option (List Char) :=
  match (if use_cached then cachedResult else none) with
  | some c => some c
  | none =>
    if decide (ports = []) then none
    else
      match find_by_vid_pid vid pid ports with
      | some d => some d
      | none =>
        match find_by_preferred preferred ports skip_virtual with
        | some d => some d
        | none => find_by_patterns skip_virtual ports

/-- Embedding of `PortFinder._get_cached_port`: the loaded record is
falsy when absent or empty; otherwise the `device` value is verified
against the environment predicate `verify` (`verify_port`) and returned
when the check passes.  A non-string or missing `device` value under a
passing check yields no result. -/
def get_cached_port (loaded : Option Record) (verify : Option PV → Bool) :
    Option (List Char) :=
  match loaded with
  | none => none
  | some cached =>
    if decide (cached = []) then none
    else if verify (recGet cached devKey) then
      match recGet cached devKey with
      | some (PV.s d) => some d
      | _ => none
    else none

end PortFinder

namespace PortFinderConfig

/-- Embedding of `PortFinderConfig.save_port`.  The backing JSON file is
modelled by `store : Option Record` (its parsed content when it exists
and holds valid JSON).  Validation happens first: a record without the
`device` key is rejected before any write, leaving the store untouched.
A write is attempted only afterwards; `writeOk` is the environment's
verdict on the file write (a failed write also returns false). -/
def save_port (writeOk : Bool) (store : Option Record) (port_info : Record) :
    Bool × Option Record :=
  if recHasKey port_info devKey then
    if writeOk then (true, some port_info) else (false, store)
  else (false, store)

/-- Embedding of `PortFinderConfig.load_port`: an absent file and corrupt
JSON are both modelled by `none`; otherwise the parsed record is
returned exactly as stored. -/
def load_port (store : Option Record) : Option Record :=
  store

/-- Embedding of `PortFinderConfig.clear_config`: on a successful write
the file holds the empty record `{}`; on a failed write `false` is
returned. -/
def clear_config (writeOk : Bool) (store : Option Record) : Bool × Option Record :=
  if writeOk then (true, some ([] : Record)) else (false, store)

end PortFinderConfig

/-- An open serial handle; `is_open` models `serial.Serial.is_open`. -/
structure Handle where
  is_open : Bool
deriving DecidableEq

/-- The connection state owned by `Station` / `StationConnection`:
the `connection` field holds the handle or `None`. -/
structure LinkState where
  connection : Option Handle
deriving DecidableEq

namespace Station

/-- Embedding of `Station.is_connected` (identical in
`StationConnection`): the handle exists and the OS reports it open. -/
def is_connected (st : LinkState) : Bool :=
  match st.connection with
  | none => false
  | some h => h.is_open

/-- Embedding of `Station.disconnect` (identical in
`StationConnection`).  `closeRaises` is the environment's verdict on
`self.connection.close()`: when it raises `SerialException`, the
`except` branch returns false and the assignment
`self.connection = None` — which follows `close()` inside the `try`
block — is never executed, so the state is returned unchanged. -/
def disconnect (st : LinkState) (closeRaises : Bool) : Bool × LinkState :=
  if is_connected st then
    if closeRaises then (false, st)
    else (true, { connection := none })
  else (false, st)

/-- Candidate from the cached-port branch of `Station._get_valid_port`
(identical in `StationConnection`): the loaded record must be truthy,
its `device` value must be a truthy string, and the port must pass
`_verify_port_available`. -/
def cached_candidate (loaded : Option Record) (verifyAvail : List Char → Bool) :
    Option (List Char) :=
  match loaded with
  | none => none
  | some info =>
    if decide (info = []) then none
    else
      match recGet info devKey with
      | some (PV.s port) =>
        if decide (port = []) then none
        else if verifyAvail port then some port else none
      | _ => none

/-- Embedding of `Station._get_valid_port` (identical in
`StationConnection`): first the cached branch, then the fallback
automatic search (`findNew` is the outcome of
`find_station_port(use_cached=False)`), whose result must also pass
`_verify_port_available`. -/
def get_valid_port (loaded : Option Record) (verifyAvail : List Char → Bool)
    (findNew : Option (List Char)) : Option (List Char) :=
  match cached_candidate loaded verifyAvail with
  | some port => some port
  | none =>
    match findNew with
    | some np => if verifyAvail np then some np else none
    | none => none

end Station

/-- Environment of a `connect` call: `openOk k` is whether the k-th
`serial.Serial(...)` open attempt succeeds, and `rediscover k` is the
outcome of the `_find_new_port()` rediscovery issued after the k-th
failed attempt. -/
structure ConnectEnv where
  openOk : Nat → Bool
  rediscover : Nat → Option (List Char)

namespace StationConnection

/-- Recursive core of `StationConnection.connect` /`Station.connect`.
`k` is the index of the current open attempt and `remaining` is
`max_retries - retry_count`, the retry budget still available — the
source recurses with `retry_count + 1` exactly while
`retry_count < max_retries`.  The result is
(success, number of open attempts, number of rediscovery invocations).
On re-entry the `self.port` and `is_connected` guards always pass
(the port was just replaced by a successful rediscovery and the failed
attempt reset `self.connection` to `None`), so they are elided here. -/
def connectGo (env : ConnectEnv) : Nat → Nat → Bool × Nat × Nat
  | k, remaining =>
    if env.openOk k then (true, 1, 0)
    else
      match remaining with
      | 0 => (false, 1, 0)
      | r + 1 =>
        match env.rediscover k with
        | none => (false, 1, 1)
        | some _ =>
          let res := connectGo env (k + 1) r
          (res.1, res.2.1 + 1, res.2.2 + 1)

/-- Embedding of a top-level `StationConnection.connect()` /
`Station.connect()` call (`retry_count = 0`): fails fast with no
attempt when no port is resolved, returns success with no attempt when
already connected, and otherwise runs the open/retry loop with the full
budget `maxRetries`. -/
def connect (env : ConnectEnv) (maxRetries : Nat) (port : Option (List Char))
    (alreadyConnected : Bool) : Bool × Nat × Nat :=
  match port with
  | none => (false, 0, 0)
  | some _ =>
    if alreadyConnected then (true, 0, 0)
    else connectGo env 0 maxRetries

end StationConnection

/-- The controller's affirmative acknowledgement token awaited by
`Station.move_to_home`. -/
def okToken : List Char := "ok".data

namespace Station

/-- Fuel-indexed unfolding of the waiting loop of `Station.move_to_home`
(`while response != "ok": response = self.read_response(); time.sleep(1)`).
`stream n` is the (stripped) line returned by the n-th `read_response`
call, `none` when the read fails.  `home_wait stream idx fuel` runs up
to `fuel` iterations starting at read index `idx`; `some true` models
the loop exiting (and the method returning true), `none` models the
loop still running after `fuel` iterations — the source imposes no
timeout and no retry cap of its own. -/
def home_wait (stream : Nat → Option (List Char)) : Nat → Nat → Option Bool
  | _, 0 => none
  | idx, fuel + 1 =>
    if stream idx = some okToken then some true
    else home_wait stream (idx + 1) fuel

end Station

/-- Outcome of the single `self.connection.readline().decode().strip()`
in `read_response`: a successfully decoded line, a `SerialException`
(caught, returning `None`), or a decode failure (uncaught, propagating
past the `finally` block). -/
inductive ReadOutcome where
  | line (s : List Char)
  | serialErr
  | decodeErr
deriving DecidableEq

/-- Python `str.strip()`: drop leading and trailing whitespace. -/
def stripWs (s : List Char) : List Char :=
  ((s.dropWhile Char.isWhitespace).reverse.dropWhile Char.isWhitespace).reverse

/-- Result of a `read_response` call on a connected link: the returned
value (`none` on a caught serial error or when an exception escapes),
whether an exception propagated out of the call, the timeout the
connection was configured with while the read executed, and the timeout
it is left configured with after the call. -/
structure ReadResult where
  value : Option (List Char)
  raised : Bool
  timeoutDuring : Rat
  timeoutAfter : Rat
deriving DecidableEq

namespace Station

/-- Embedding of `Station.read_response` / `StationConnection.read_response`
on a connected instance.  `connTimeout` is the connection's configured
timeout on entry.  The source saves `original_timeout`, overrides the
connection timeout only when the `timeout` argument is supplied, and
restores the original in a `finally` block (again only when the
argument was supplied) — so restoration happens on the success path, the
caught-`SerialException` path, and the uncaught-decode-failure path
alike. -/
def read_response (connTimeout : Rat) (timeoutArg : Option Rat) (outcome : ReadOutcome) :
    ReadResult :=
  let original := connTimeout
  let during :=
    match timeoutArg with
    | some t => t
    | none => connTimeout
  let valueRaised : Option (List Char) × Bool :=
    match outcome with
    | ReadOutcome.line s => (some (stripWs s), false)
    | ReadOutcome.serialErr => (none, false)
    | ReadOutcome.decodeErr => (none, true)
  let finalTimeout :=
    match timeoutArg with
    | some _ => original
    | none => during
  { value := valueRaised.1, raised := valueRaised.2,
    timeoutDuring := during, timeoutAfter := finalTimeout }

end Station

/-- Numeric value of an ASCII digit, `none` on every other character. -/
def digitVal (c : Char) : Option Nat :=
  if c.isDigit then some (c.toNat - 48) else none

/-- Accumulating decimal-digit parser: fails on any non-digit. -/
def parseDigitsAux : List Char → Nat → Option Nat
  | [], acc => some acc
  | c :: cs, acc =>
    match digitVal c with
    | some d => parseDigitsAux cs (acc * 10 + d)
    | none => none

/-- Ten to the n-th power, kept as a plain `Nat` recursion so proofs and
`decide` evaluate it directly. -/
def pow10 : Nat → Nat
  | 0 => 1
  | n + 1 => 10 * pow10 n

/-- Model of Python `float(s)` on the decimal forms the controller's
position reports use: an optional sign, then digits with at most one
decimal point (at least one digit overall).  Exponent, infinity and NaN
forms do not occur in the modelled protocol and are outside this model.
The result is an exact rational. -/
def parseFloat (s : List Char) : Option Rat :=
  let signRest : Int × List Char :=
    match s with
    | '-' :: cs => (-1, cs)
    | '+' :: cs => (1, cs)
    | cs => (1, cs)
  match splitOnList ['.'] signRest.2 with
  | [ip] =>
    if decide (ip = []) then none
    else (parseDigitsAux ip 0).map fun n => mkRat (signRest.1 * (n : Int)) 1
  | [ip, fp] =>
    if decide (ip = []) && decide (fp = []) then none
    else
      match parseDigitsAux ip 0, parseDigitsAux fp 0 with
      | some iv, some fv =>
        some (mkRat (signRest.1 * ((iv * pow10 fp.length + fv : Nat) : Int)) (pow10 fp.length))
      | _, _ => none
  | _ => none

/-- A parsed machine position `{x, y, z}` with exact rational
coordinates. -/
structure Position where
  x : Rat
  y : Rat
  z : Rat
deriving DecidableEq

/-- The position marker searched for in a status response. -/
def mposTag : List Char := "MPos:".data

/-- The field delimiter of a status response. -/
def pipeSep : List Char := "|".data

/-- The coordinate separator inside the MPos field. -/
def commaSep : List Char := ",".data

namespace Station

/-- The `float()` conversions of the first three comma-separated
coordinate fields in `get_current_position`: the source indexes
`coordinates[0..2]` under a `len(coordinates) >= 3` guard, rendered here
as a shape match; a conversion failure (`ValueError`) is caught and
yields no position. -/
def parse_coordinates (coordinates : List (List Char)) : Option Position :=
  match coordinates with
  | c0 :: c1 :: c2 :: _ =>
    match parseFloat c0, parseFloat c1, parseFloat c2 with
    | some xv, some yv, some zv => some { x := xv, y := yv, z := zv }
    | _, _, _ => none
  | _ => none

/-- Embedding of the response-handling part of
`Station.get_current_position`, with the outcome of
`read_response(timeout=1.0)` as the `response` parameter.  An absent or
empty response is rejected (`if not response:`); without the `MPos:`
marker no parse is attempted; otherwise the source takes
`response.split("MPos:")[1]` (the `none` branch of the index models the
`IndexError` caught below, though it cannot fire under the marker
guard), cuts it at the first `|`, splits on commas and converts the
first three fields. -/
def get_current_position (response : Option (List Char)) : Option Position :=
  match response with
  | none => none
  | some r =>
    if decide (r = []) then none
    else if containsSub mposTag r then
      match (splitOnList mposTag r).get? 1 with
      | none => none
      | some afterTag =>
        parse_coordinates
          (splitOnList commaSep ((splitOnList pipeSep afterTag).headD []))
    else none

end Station

/-!
Concrete inputs used by the counterexamples and witnesses below.
-/

/-- The status line of the specification's parsing example. -/
def demoStatusLine : List Char := "<Idle|MPos:1.000,2.500,-3.000|FS:0,0>".data

/-- The position the example line denotes. -/
def demoPosition : Position := { x := mkRat 1 1, y := mkRat 5 2, z := mkRat (-3) 1 }

/-- A single enumerated port whose vid/pid match nothing but whose
description matches the generic pattern tier. -/
def c1Port : SPort :=
  { device := "COM3".data, vid := some 0x9999, pid := some 0x9999,
    description := some ("Arduino Uno".data) }

/-- Port list for the C1 counterexample. -/
def c1Ports : List SPort := [c1Port]

/-- A port list on which no tier matches at all. -/
def quietPorts : List SPort :=
  [{ device := "COM9".data, vid := some 5, pid := some 6,
     description := some ("zzz".data) }]

/-- A connected link state holding an open handle. -/
def openLink : LinkState := { connection := some { is_open := true } }

/-- Environment where every open attempt fails and every rediscovery
finds a port. -/
def failingEnv : ConnectEnv :=
  { openOk := fun _ => false, rediscover := fun _ => some ("COM4".data) }

/-- Response stream whose second read yields the acknowledgement. -/
def okAtOneStream : Nat → Option (List Char) :=
  fun n => if n = 1 then some okToken else none

/-- Response stream that never yields the acknowledgement. -/
def silentStream : Nat → Option (List Char) :=
  fun _ => none

/-- A well-formed descriptor containing the `device` key. -/
def com3Record : Record := [(devKey, PV.s ("COM3".data))]

/-- A descriptor lacking the `device` key. -/
def noDeviceRecord : Record := [("description".data, PV.s ("no device".data))]



/-!
Theorems settling the claims.
-/

section Helpers

theorem find_by_vid_pid_eq_none_of_no_match (vid pid : Option Nat) (ports : List SPort)
    (hexact : ∀ p ∈ ports, ¬ (p.vid = vid ∧ p.pid = pid)) :
    PortFinder.find_by_vid_pid vid pid ports = none := by
  unfold PortFinder.find_by_vid_pid
  by_cases hg : (truthy vid && truthy pid) = true
  · rw [if_pos hg]
    have hfind : ports.find? (fun p => decide (p.vid = vid) && decide (p.pid = pid)) = none := by
      rw [List.find?_eq_none]
      intro p hp
      simp only [Bool.and_eq_true, decide_eq_true_eq, not_and]
      intro h1 h2
      exact hexact p hp ⟨h1, h2⟩
    rw [hfind]
  · rw [if_neg hg]

theorem connectGo_all_fail (env : ConnectEnv)
    (hopen : ∀ k, env.openOk k = false)
    (hred : ∀ k, (env.rediscover k).isSome = true) :
    ∀ m k, StationConnection.connectGo env k m = (false, m + 1, m) := by
  intro m
  induction m with
  | zero =>
    intro k
    simp [StationConnection.connectGo, hopen k]
  | succ r ih =>
    intro k
    obtain ⟨s, hs⟩ := Option.isSome_iff_exists.mp (hred k)
    simp [StationConnection.connectGo, hopen k, hs, ih (k + 1)]

theorem connectGo_attempts_le (env : ConnectEnv) :
    ∀ m k, (StationConnection.connectGo env k m).2.1 ≤ m + 1 := by
  intro m
  induction m with
  | zero =>
    intro k
    cases h : env.openOk k <;> simp [StationConnection.connectGo, h]
  | succ r ih =>
    intro k
    cases h : env.openOk k with
    | true => simp [StationConnection.connectGo, h]
    | false =>
      cases hr : env.rediscover k with
      | none => simp [StationConnection.connectGo, h, hr]
      | some s =>
        have hb := ih (k + 1)
        simp [StationConnection.connectGo, h, hr]
        omega

theorem home_wait_exit_exists (stream : Nat → Option (List Char)) :
    ∀ fuel idx, Station.home_wait stream idx fuel = some true →
      ∃ n, stream n = some okToken := by
  intro fuel
  induction fuel with
  | zero =>
    intro idx h
    simp [Station.home_wait] at h
  | succ f ih =>
    intro idx h
    by_cases hs : stream idx = some okToken
    · exact ⟨idx, hs⟩
    · rw [Station.home_wait, if_neg hs] at h
      exact ih (idx + 1) h

theorem home_wait_silent_none (stream : Nat → Option (List Char))
    (h : ∀ n, stream n ≠ some okToken) :
    ∀ fuel idx, Station.home_wait stream idx fuel = none := by
  intro fuel
  induction fuel with
  | zero => intro idx; rfl
  | succ f ih =>
    intro idx
    rw [Station.home_wait, if_neg (h idx)]
    exact ih (idx + 1)

theorem parse_coordinates_none_of_few_numeric (c : List (List Char))
    (h : c.countP (fun s => (parseFloat s).isSome) < 3) :
    Station.parse_coordinates c = none := by
  cases c with
  | nil => rfl
  | cons c0 t0 =>
    cases t0 with
    | nil => rfl
    | cons c1 t1 =>
      cases t1 with
      | nil => rfl
      | cons c2 rest =>
        cases h0 : parseFloat c0 with
        | none => simp [Station.parse_coordinates, h0]
        | some xv =>
          cases h1 : parseFloat c1 with
          | none => simp [Station.parse_coordinates, h0, h1]
          | some yv =>
            cases h2 : parseFloat c2 with
            | none => simp [Station.parse_coordinates, h0, h1, h2]
            | some zv =>
              exfalso
              rw [List.countP_cons, List.countP_cons, List.countP_cons] at h
              simp [h0, h1, h2] at h
              omega

end Helpers

/-- C1 counterexample: with the cache disabled, both `vid` and `pid`
supplied and no enumerated port matching them, `find_station_port` does
NOT return nothing — the single port's description `Arduino Uno` is
picked up by the description-pattern tier and its device is returned. -/
theorem c1_counterexample :
    PortFinder.find_station_port none (some 1) (some 2) none true false c1Ports
        = some ("COM3".data)
    ∧ c1Ports.all (fun p => !(decide (p.vid = some 1) && decide (p.pid = some 2))) = true := by
  constructor
  · decide
  · decide

/-- C1 (amended): with the cache disabled or missing and no port whose
vid/pid pair equals the arguments, `find_station_port` returns nothing
provided additionally that the preferred-device tier and the
description-pattern tier also find nothing — the exact-match tier alone
yields no result, and the call falls through to the later tiers. -/
theorem c1_find_station_port_no_exact_match (cachedResult : Option (List Char))
    (vid pid : Option Nat) (prefs : Option (List (List Char))) (sv uc : Bool)
    (ports : List SPort)
    (hcache : uc = false ∨ cachedResult = none)
    (hexact : ∀ p ∈ ports, ¬ (p.vid = vid ∧ p.pid = pid))
    (hpref : PortFinder.find_by_preferred prefs ports sv = none)
    (hpat : PortFinder.find_by_patterns sv ports = none) :
    PortFinder.find_station_port cachedResult vid pid prefs sv uc ports = none := by
  have hvp := find_by_vid_pid_eq_none_of_no_match vid pid ports hexact
  rcases hcache with h | h <;> subst h <;> by_cases hp0 : ports = [] <;>
    simp [PortFinder.find_station_port, hp0, hvp, hpref, hpat]

/-- C1 witness: concrete quiet port list on which every tier fails. -/
theorem c1_amended_witness :
    PortFinder.find_by_preferred none quietPorts true = none
    ∧ PortFinder.find_by_patterns true quietPorts = none
    ∧ PortFinder.find_station_port none (some 1) (some 2) none true false quietPorts = none :=
  ⟨by decide, by decide,
   c1_find_station_port_no_exact_match none (some 1) (some 2) none true false quietPorts
     (Or.inl rfl) (by decide) (by decide) (by decide)⟩

/-- C2 counterexample: on a connected link whose `close()` raises, the
`disconnect` of the source returns false but leaves the `connection`
field set — the clearing assignment sits after `close()` inside the
`try` block and is skipped when `close()` raises. -/
theorem c2_counterexample :
    (Station.disconnect openLink true).1 = false
    ∧ (Station.disconnect openLink true).2.connection ≠ none := by
  constructor
  · decide
  · decide

/-- C2 (amended): if `disconnect()` is called on a connected instance
and closing the handle raises an I/O error, it returns false and the
connection state is left UNCHANGED — the handle is not cleared; clearing
happens only on a successful close. -/
theorem c2_disconnect_error_keeps_handle (st : LinkState)
    (h : Station.is_connected st = true) :
    Station.disconnect st true = (false, st) := by
  simp [Station.disconnect, h]

/-- C2 witness: the open-link state. -/
theorem c2_disconnect_error_keeps_handle_witness :
    Station.is_connected openLink = true
    ∧ Station.disconnect openLink true = (false, openLink) :=
  ⟨rfl, c2_disconnect_error_keeps_handle openLink rfl⟩

/-- C3: on a resolved port, when every open attempt fails and every
rediscovery finds some port, a top-level `connect()` performs exactly
`max_retries + 1` open attempts, invokes rediscovery exactly
`max_retries` times, and returns false; and in every environment the
number of open attempts of a top-level `connect()` call is at most
`max_retries + 1`. -/
theorem c3_connect_retry_budget (env : ConnectEnv) (m : Nat) (p : List Char)
    (hopen : ∀ k, env.openOk k = false)
    (hred : ∀ k, (env.rediscover k).isSome = true) :
    StationConnection.connect env m (some p) false = (false, m + 1, m)
    ∧ ∀ (env2 : ConnectEnv) (m2 : Nat) (port : Option (List Char)) (ac : Bool),
        (StationConnection.connect env2 m2 port ac).2.1 ≤ m2 + 1 := by
  constructor
  · simp [StationConnection.connect, connectGo_all_fail env hopen hred m 0]
  · intro env2 m2 port ac
    cases port with
    | none => simp [StationConnection.connect]
    | some q =>
      cases ac with
      | true => simp [StationConnection.connect]
      | false => simpa [StationConnection.connect] using connectGo_attempts_le env2 m2 0

/-- C3 witness: `max_retries = 3` against the always-failing
environment gives 4 attempts, 3 rediscoveries, and failure. -/
theorem c3_connect_retry_budget_witness :
    StationConnection.connect failingEnv 3 (some ("COM1".data)) false = (false, 4, 3) :=
  (c3_connect_retry_budget failingEnv 3 ("COM1".data) (fun _ => rfl) (fun _ => rfl)).1

/-- C4: the homing wait loop of `move_to_home` exits with true only if
some read yields a line exactly equal to the acknowledgement token
`ok`; on a response stream that never yields exactly `ok` (failed reads
included) the loop runs past every finite number of iterations — it has
no timeout and no retry cap. -/
theorem c4_home_wait_ack_only :
    (∀ (stream : Nat → Option (List Char)) (fuel : Nat),
        Station.home_wait stream 0 fuel = some true → ∃ n, stream n = some okToken)
    ∧ (∀ stream : Nat → Option (List Char), (∀ n, stream n ≠ some okToken) →
        ∀ idx fuel : Nat, Station.home_wait stream idx fuel = none) := by
  constructor
  · intro stream fuel h
    exact home_wait_exit_exists stream fuel 0 h
  · intro stream h idx fuel
    exact home_wait_silent_none stream h fuel idx

/-- C4 witness: a stream acknowledging on its second read exits the
loop, and the all-`None` stream never does. -/
theorem c4_home_wait_ack_only_witness :
    (∃ n, okAtOneStream n = some okToken)
    ∧ Station.home_wait silentStream 3 5 = none :=
  ⟨c4_home_wait_ack_only.1 okAtOneStream 2 (by decide),
   c4_home_wait_ack_only.2 silentStream (fun n hn => Option.noConfusion hn) 3 5⟩

/-- C5: `save_port` on a record lacking the `device` key returns false
and leaves the backing store exactly as it was, for every prior stored
state and whatever the write environment would have done. -/
theorem c5_save_port_missing_device (store : Option Record) (info : Record)
    (writeOk : Bool) (h : recHasKey info devKey = false) :
    PortFinderConfig.save_port writeOk store info = (false, store) := by
  simp [PortFinderConfig.save_port, h]

/-- C5 witness: a device-less record against a non-empty prior store. -/
theorem c5_save_port_missing_device_witness :
    recHasKey noDeviceRecord devKey = false
    ∧ PortFinderConfig.save_port true (some com3Record) noDeviceRecord
        = (false, some com3Record) :=
  ⟨by decide,
   c5_save_port_missing_device (some com3Record) noDeviceRecord true (by decide)⟩

/-- C6: for every record containing the `device` key, a successful
`save_port` followed by `load_port` yields a record equal to the one
saved. -/
theorem c6_save_load_round_trip (store st2 : Option Record) (d : Record) (writeOk : Bool)
    (hkey : recHasKey d devKey = true)
    (hsave : PortFinderConfig.save_port writeOk store d = (true, st2)) :
    PortFinderConfig.load_port st2 = some d := by
  unfold PortFinderConfig.save_port at hsave
  rw [hkey] at hsave
  cases writeOk with
  | false => simp at hsave
  | true =>
    simp at hsave
    rw [PortFinderConfig.load_port, ← hsave]

/-- C6 witness: round-trip of a concrete descriptor. -/
theorem c6_save_load_round_trip_witness :
    recHasKey com3Record devKey = true
    ∧ PortFinderConfig.load_port (some com3Record) = some com3Record :=
  ⟨by decide,
   c6_save_load_round_trip none (some com3Record) com3Record true (by decide) (by decide)⟩

/-- C7: on a connected link, `read_response` leaves the configured
timeout after the call equal to its value before the call on every exit
path (successful read, caught serial error, and propagating decode
failure alike), and a call with no timeout argument never changes the
configured timeout at any point of the call. -/
theorem c7_read_response_timeout_restored :
    (∀ (connTimeout : Rat) (timeoutArg : Option Rat) (outcome : ReadOutcome),
        (Station.read_response connTimeout timeoutArg outcome).timeoutAfter = connTimeout)
    ∧ (∀ (connTimeout : Rat) (outcome : ReadOutcome),
        (Station.read_response connTimeout none outcome).timeoutDuring = connTimeout) := by
  constructor
  · intro ct t o
    cases t <;> rfl
  · intro ct o
    rfl

/-- C8: `get_current_position` maps the example status line
`<Idle|MPos:1.000,2.500,-3.000|FS:0,0>` to `{x := 1, y := 5/2, z := -3}`;
every response without the `MPos:` marker yields no position; and every
response whose MPos field holds fewer than three comma-separated numeric
values yields no position rather than an error. -/
theorem c8_get_current_position_spec :
    Station.get_current_position (some demoStatusLine) = some demoPosition
    ∧ (∀ r : List Char, containsSub mposTag r = false →
        Station.get_current_position (some r) = none)
    ∧ (∀ (r afterTag : List Char), (splitOnList mposTag r).get? 1 = some afterTag →
        (splitOnList commaSep ((splitOnList pipeSep afterTag).headD [])).countP
            (fun s => (parseFloat s).isSome) < 3 →
        Station.get_current_position (some r) = none) := by
  refine ⟨by decide, ?_, ?_⟩
  · intro r h
    by_cases hr : r = []
    · simp [Station.get_current_position, hr]
    · simp [Station.get_current_position, hr, h]
  · intro r afterTag h1 h2
    by_cases hr : r = []
    · simp [Station.get_current_position, hr]
    · by_cases hm : containsSub mposTag r = true
      · have h1' : (splitOnList mposTag r)[1]? = some afterTag := by
          simpa using h1
        simp [Station.get_current_position, hr, hm, h1']
        exact parse_coordinates_none_of_few_numeric _ (by simpa using h2)
      · have hm2 : containsSub mposTag r = false := by
          simpa using hm
        simp [Station.get_current_position, hr, hm2]

/-- C8 witness: a marker-free line and a line whose MPos field holds
only two values both yield no position. -/
theorem c8_get_current_position_witness :
    Station.get_current_position (some ("hello".data)) = none
    ∧ Station.get_current_position (some ("xMPos:1,2|y".data)) = none :=
  ⟨c8_get_current_position_spec.2.1 ("hello".data) (by decide),
   c8_get_current_position_spec.2.2 ("xMPos:1,2|y".data) ("1,2|y".data)
     (by decide) (by decide)⟩

/-- C9: the `if vid and pid:` guard tests Python truthiness, so calling
`find_station_port` with either argument equal to zero skips the exact
VID/PID tier entirely — it returns nothing even on a port whose ids are
exactly the arguments — and the whole call behaves exactly as if the
vid/pid pair had not been given. -/
theorem c9_zero_vid_pid_skips_exact_tier :
    ∀ (cached : Option (List Char)) (vid pid : Option Nat)
      (prefs : Option (List (List Char))) (sv uc : Bool) (ports : List SPort),
      PortFinder.find_by_vid_pid (some 0) pid ports = none
      ∧ PortFinder.find_by_vid_pid vid (some 0) ports = none
      ∧ PortFinder.find_station_port cached (some 0) pid prefs sv uc ports
          = PortFinder.find_station_port cached none pid prefs sv uc ports
      ∧ PortFinder.find_station_port cached vid (some 0) prefs sv uc ports
          = PortFinder.find_station_port cached vid none prefs sv uc ports := by
  intro cached vid pid prefs sv uc ports
  have hz1 : PortFinder.find_by_vid_pid (some 0) pid ports = none := by
    simp [PortFinder.find_by_vid_pid, truthy]
  have hz2 : PortFinder.find_by_vid_pid vid (some 0) ports = none := by
    simp [PortFinder.find_by_vid_pid, truthy]
  have hn1 : PortFinder.find_by_vid_pid none pid ports = none := by
    simp [PortFinder.find_by_vid_pid, truthy]
  have hn2 : PortFinder.find_by_vid_pid vid none ports = none := by
    simp [PortFinder.find_by_vid_pid, truthy]
  refine ⟨hz1, hz2, ?_, ?_⟩
  · simp [PortFinder.find_station_port, hz1, hn1]
  · simp [PortFinder.find_station_port, hz2, hn2]

/-- C10: a successful `clear_config` leaves the store holding the empty
record, `load_port` then returns `{}` (not `None`), the empty record is
falsy so `_get_cached_port` treats it as no cache, and `_get_valid_port`
behaves exactly as with no stored configuration at all. -/
theorem c10_clear_config_empty_record :
    (∀ store : Option Record, PortFinderConfig.clear_config true store
        = (true, some ([] : Record)))
    ∧ PortFinderConfig.load_port (some ([] : Record)) = some ([] : Record)
    ∧ (∀ verify : Option PV → Bool,
        PortFinder.get_cached_port (PortFinderConfig.load_port (some ([] : Record))) verify
          = none)
    ∧ (∀ (verifyAvail : List Char → Bool) (findNew : Option (List Char)),
        Station.get_valid_port (some ([] : Record)) verifyAvail findNew
          = Station.get_valid_port none verifyAvail findNew) :=
  ⟨fun _ => rfl, rfl, fun _ => rfl, fun _ _ => rfl⟩
